import Mathlib

/-!
Shallow embedding of `src/main.py` (Cloud Storage metadata forwarder).

The whole program is one handler, `procesar_archivo_gcs`, triggered with a
CloudEvent envelope.  It validates the event's data body, logs metadata and
forwards a JSON payload via a single HTTP POST to a fixed Apps Script URL,
authenticated by a shared-secret query parameter.

Modelling choices:
* Python values occurring in the data body are `PyVal` (strings, integers,
  `None`, dicts).  Truthiness follows Python.
* The CloudEvent attribute accesses `cloud_event["id"] / ["type"] / ["time"]`
  raise `KeyError` when the attribute is absent (dict-style access in the
  cloudevents SDK); they happen before the `try` block, so a missing
  attribute escapes the handler.
* `int(x)` follows Python: ok on ints, on strings that are an optionally
  signed digit run (surrounding whitespace stripped), `ValueError` on other
  strings, `TypeError` on non-int non-str values.
* `content_type.startswith(...)` raises `AttributeError` when `content_type`
  is not a string.
* The outbound call is modelled by a responder function from the request to
  either an HTTP status plus body text, or a raised connection-level
  `requests` exception.  `response.raise_for_status()` raises `HTTPError`
  exactly for status codes in [400, 600); `HTTPError` and connection errors
  are both `requests.exceptions.RequestException`.
* Each `logger.<level>(...)` call becomes one structured `LogEntry` whose
  constructor carries the interpolated values of the corresponding f-string.
-/

namespace GcsMeta

/-- Python values as they occur in the event data body. -/
inductive PyVal where
  | none
  | str (s : String)
  | int (n : Int)
  | dict (entries : List (String × PyVal))

/-- Python truthiness (`bool(v)`). -/
def PyVal.truthy : PyVal → Bool
  | .none => false
  | .str s => s != ""
  | .int n => n != 0
  | .dict es => !es.isEmpty

/-- Python `isinstance(v, dict)`. -/
def PyVal.isDict : PyVal → Bool
  | .dict _ => true
  | _ => false

/-- The entries of a dict value (only used after an `isinstance` check). -/
def PyVal.dictEntries : PyVal → List (String × PyVal)
  | .dict es => es
  | _ => []

/-- Python `d.get(k)`: first binding of `k`, else `None`. -/
def dictGet (es : List (String × PyVal)) (k : String) : PyVal :=
  match es.find? (fun p => p.1 == k) with
  | some p => p.2
  | Option.none => PyVal.none

/-- Python exceptions that the handler can raise or catch. -/
inductive PyExc where
  | keyError (k : String)
  | valueError (offending : String)
  | typeError
  | attributeError
  | httpError (code : Nat)
  | connectionError (msg : String)
deriving DecidableEq, Repr

/-- Python `s.startswith(p)` on strings. -/
def pyStartsWith (s p : String) : Bool :=
  p.data.isPrefixOf s.data

/-- Strip leading and trailing whitespace, as `int()` does before parsing. -/
def pyStrip (cs : List Char) : List Char :=
  ((cs.dropWhile Char.isWhitespace).reverse.dropWhile Char.isWhitespace).reverse

/-- Numeric value of a run of decimal digits. -/
def digitsVal (cs : List Char) : Nat :=
  cs.foldl (fun n c => n * 10 + (c.toNat - 48)) 0

/-- Python `int(s)` on a string: strip whitespace, optional single sign, then a
non-empty digit run; anything else raises `ValueError`. -/
def strToInt? (s : String) : Option Int :=
  match pyStrip s.data with
  | [] => Option.none
  | c :: rest =>
    let digits := if c == '-' || c == '+' then rest else c :: rest
    if digits.isEmpty || !digits.all Char.isDigit then Option.none
    else if c == '-' then some (-(digitsVal digits : Int))
    else some ((digitsVal digits : Int))

/-- Python `int(v)` on an arbitrary value. -/
def pyInt : PyVal → Except PyExc Int
  | .int n => .ok n
  | .str s =>
    match strToInt? s with
    | some n => .ok n
    | Option.none => .error (.valueError s)
  | _ => .error .typeError

/-- Severity of a log line. -/
inductive LogLevel where
  | info
  | warning
  | error
deriving DecidableEq, Repr

/-- One structured log message per `logger.*` call site in `main.py`,
carrying the values interpolated into the f-string at that site. -/
inductive LogMsg where
  /-- line 39: invalid or empty event data. -/
  | invalidEventData
  /-- line 49: missing essential metadata; carries the received data body. -/
  | missingEssential (data : PyVal)
  /-- line 52: activated by a CloudEvent at the given timestamp. -/
  | activated (eid timestamp : String)
  /-- line 53: the event type. -/
  | eventTypeInfo (eid etype : String)
  /-- line 54: processing file in bucket. -/
  | processingFile (eid : String) (fileName bucketName : PyVal)
  /-- line 55: file details header. -/
  | fileDetails (eid : String)
  /-- line 56: size detail. -/
  | sizeDetail (fileSize : PyVal)
  /-- line 57: content type detail. -/
  | contentTypeDetail (contentType : PyVal)
  /-- line 58: metageneration detail. -/
  | metagenerationDetail (mg : PyVal)
  /-- line 83: content type is neither text-like nor application-like. -/
  | contentTypeWarning (eid : String) (fileName contentType : PyVal)
  /-- line 86: file larger than the 10 MiB threshold. -/
  | largeFileWarning (eid : String) (fileName : PyVal) (actualSize : Int)
  /-- line 88: metadata extracted and logged. -/
  | extractedOk (eid : String) (fileName : PyVal)
  /-- line 92: sending metadata to the web app URL. -/
  | sendingTo (eid url : String)
  /-- line 93: the headers about to be sent. -/
  | headersInfo (eid : String) (headers : List (String × String))
  /-- line 94: the query parameters about to be sent. -/
  | paramsInfo (eid : String) (params : List (String × String))
  /-- line 100: request succeeded with status and response text. -/
  | requestSuccess (eid : String) (status : Nat) (text : String)
  /-- line 103: error while sending to the web app. -/
  | sendError (eid : String) (e : PyExc)
  /-- line 105: error converting the file size. -/
  | sizeConvertError (eid : String) (fileName : PyVal) (e : PyExc)
  /-- line 107: unexpected error while processing the file. -/
  | unexpectedError (eid : String) (fileName : PyVal) (e : PyExc)

/-- A log line: severity plus structured message. -/
structure LogEntry where
  level : LogLevel
  msg : LogMsg

/-- The outbound HTTP request issued by `requests.post`:
URL, headers, query parameters, and the JSON body (an ordered mapping,
as serialized by `json.dumps`). -/
structure HttpRequest where
  url : String
  headers : List (String × String)
  params : List (String × String)
  body : List (String × PyVal)

/-- What the outbound call produces: a response with a status code and
body text, or a connection-level exception raised by `requests.post`. -/
inductive HttpResult where
  | status (code : Nat) (text : String)
  | raisedConn (msg : String)

/-- The fixed Apps Script webhook URL (line 13). -/
def APPS_SCRIPT_WEB_APP_URL : String :=
  "https://script.google.com/macros/s/AKfycbw3ktuue6_x_SzbGFb58CS5nbttsLvpi5Nzd9fdPaM6egVlywNsll2UaTbwuFsIX8Re/exec"

/-- The token from `os.environ.get` with the hardcoded fallback default (line 17). -/
def WEBHOOK_SECRET_TOKEN (env : Option String) : String :=
  env.getD "12345"

/-- The CloudEvent envelope as seen by the handler: the three attributes it
reads (absent attribute access raises `KeyError`) and the data body. -/
structure CloudEvent where
  idAttr : Option String
  typeAttr : Option String
  timeAttr : Option String
  data : PyVal

/-- Model of `response.raise_for_status()`: raises `HTTPError` iff the status code is
in `[400, 600)`. -/
def raiseForStatus (code : Nat) : Except PyExc Unit :=
  if 400 ≤ code ∧ code < 600 then .error (.httpError code) else .ok ()

/-- Whether an exception is a `requests.exceptions.RequestException`
(`HTTPError` is a subclass; connection-level failures also qualify). -/
def isRequestException : PyExc → Bool
  | .httpError _ => true
  | .connectionError _ => true
  | _ => false

/-- Everything observable from one invocation: the log lines in order, the
outbound requests in order, and whether the handler returned normally or
let an exception escape. -/
inductive Outcome where
  | ok
  | raised (e : PyExc)

/-- Result of running the handler. -/
structure RunResult where
  logs : List LogEntry
  posts : List HttpRequest
  outcome : Outcome

/-- The error-level log lines of a run. -/
def RunResult.errorLogs (r : RunResult) : List LogEntry :=
  r.logs.filter (fun e => e.level == LogLevel.error)

/-- The warning-level log lines of a run. -/
def RunResult.warningLogs (r : RunResult) : List LogEntry :=
  r.logs.filter (fun e => e.level == LogLevel.warning)

/-- Line 82-83: the advisory content-type warning (emitted when the content
type starts with neither `text/` nor `application/`). -/
def ctypeWarn (eid : String) (fileName : PyVal) (c : String) : List LogEntry :=
  if !pyStartsWith c "text/" && !pyStartsWith c "application/" then
    [⟨.warning, .contentTypeWarning eid fileName (.str c)⟩]
  else []

/-- Line 85-86: the advisory large-file warning (parsed size over 10 MiB). -/
def sizeWarn (eid : String) (fileName : PyVal) (actualSize : Int) : List LogEntry :=
  if actualSize > 10 * 1024 * 1024 then
    [⟨.warning, .largeFileWarning eid fileName actualSize⟩]
  else []

/-- Lines 88-94: the info lines logged between the advisories and the POST. -/
def preSendInfos (eid : String) (fileName : PyVal)
    (headers params : List (String × String)) : List LogEntry :=
  [⟨.info, .extractedOk eid fileName⟩,
   ⟨.info, .sendingTo eid APPS_SCRIPT_WEB_APP_URL⟩,
   ⟨.info, .headersInfo eid headers⟩,
   ⟨.info, .paramsInfo eid params⟩]

/-- Result of the `try` block: logs and posts it performed, and whether it
completed or raised an exception (to be dispatched by the `except` arms). -/
structure TryResult where
  logs : List LogEntry
  posts : List HttpRequest
  result : Except PyExc Unit

/-- Lines 79-100, the body of the `try` block: parse the size
(`ValueError`/`TypeError` on failure), run the two advisory checks
(`AttributeError` when the content type is not a string), log the pre-send
info lines, issue the POST, and `raise_for_status` on the response. -/
def tryBlock (respond : HttpRequest → HttpResult) (eid : String)
    (fileName fileSize contentType : PyVal)
    (headers params : List (String × String))
    (payload : List (String × PyVal)) : TryResult :=
  match pyInt fileSize with
  | .error e => ⟨[], [], .error e⟩
  | .ok actualSize =>
    match contentType with
    | .str c =>
      let warns := ctypeWarn eid fileName c ++ sizeWarn eid fileName actualSize
      let req : HttpRequest := ⟨APPS_SCRIPT_WEB_APP_URL, headers, params, payload⟩
      match respond req with
      | .raisedConn m =>
        ⟨warns ++ preSendInfos eid fileName headers params, [req],
         .error (.connectionError m)⟩
      | .status code text =>
        match raiseForStatus code with
        | .error e =>
          ⟨warns ++ preSendInfos eid fileName headers params, [req], .error e⟩
        | .ok _ =>
          ⟨warns ++ preSendInfos eid fileName headers params ++
             [⟨.info, .requestSuccess eid code text⟩], [req], .ok ()⟩
    | _ => ⟨[], [], .error .attributeError⟩

/-- Lines 102-107: the three `except` arms, in order.
`RequestException` first, then `ValueError`, then the catch-all. -/
def handleExc (eid : String) (fileName : PyVal) (e : PyExc) : LogEntry :=
  if isRequestException e then ⟨.error, .sendError eid e⟩
  else
    match e with
    | .valueError s => ⟨.error, .sizeConvertError eid fileName (.valueError s)⟩
    | _ => ⟨.error, .unexpectedError eid fileName e⟩

/-- Lines 52-58: the seven info lines logged after validation passes. -/
def introLogs (eid etype timestamp : String)
    (fileName bucketName fileSize contentType mg : PyVal) : List LogEntry :=
  [⟨.info, .activated eid timestamp⟩,
   ⟨.info, .eventTypeInfo eid etype⟩,
   ⟨.info, .processingFile eid fileName bucketName⟩,
   ⟨.info, .fileDetails eid⟩,
   ⟨.info, .sizeDetail fileSize⟩,
   ⟨.info, .contentTypeDetail contentType⟩,
   ⟨.info, .metagenerationDetail mg⟩]

/-- Lines 60-67: the outbound payload (dict literal, in insertion order;
`fileSize` is the pre-parsed value as received). -/
def thePayload (fileName bucketName fileSize contentType : PyVal)
    (timestamp : String) : List (String × PyVal) :=
  [("fileName", fileName),
   ("bucketName", bucketName),
   ("fileSize", fileSize),
   ("contentType", contentType),
   ("timeCreated", .str timestamp),
   ("source", .str "CloudStorage")]

/-- Lines 52-107: everything after the essential-field validation passed.
Builds the payload, headers and query parameters, runs the `try` block and
dispatches a raised exception to the matching `except` arm's error log. -/
def afterValidation (cfgToken : String) (respond : HttpRequest → HttpResult)
    (eid etype timestamp : String) (es : List (String × PyVal)) : RunResult :=
  let bucket_name := dictGet es "bucket"
  let file_name := dictGet es "name"
  let file_size := dictGet es "size"
  let content_type := dictGet es "contentType"
  let metageneration := dictGet es "metageneration"
  let intro := introLogs eid etype timestamp
    file_name bucket_name file_size content_type metageneration
  let t := tryBlock respond eid file_name file_size content_type
    [("Content-Type", "application/json")] [("token", cfgToken)]
    (thePayload file_name bucket_name file_size content_type timestamp)
  match t.result with
  | .ok _ => ⟨intro ++ t.logs, t.posts, .ok⟩
  | .error e => ⟨intro ++ t.logs ++ [handleExc eid file_name e], t.posts, .ok⟩

/-- The handler (lines 21-107).  `cfgToken` is the module-level
`WEBHOOK_SECRET_TOKEN`; `respond` models what `requests.post` returns for a
given request.  Attribute reads on lines 34-36 precede the `try` block, so a
missing attribute raises `KeyError` out of the handler. -/
def procesar_archivo_gcs (cfgToken : String)
    (respond : HttpRequest → HttpResult) (ev : CloudEvent) : RunResult :=
  match ev.idAttr with
  | Option.none => ⟨[], [], .raised (.keyError "id")⟩
  | some eid =>
    match ev.typeAttr with
    | Option.none => ⟨[], [], .raised (.keyError "type")⟩
    | some etype =>
      match ev.timeAttr with
      | Option.none => ⟨[], [], .raised (.keyError "time")⟩
      | some timestamp =>
        if !ev.data.truthy || !ev.data.isDict then
          ⟨[⟨.error, .invalidEventData⟩], [], .ok⟩
        else
          let es := ev.data.dictEntries
          if !((dictGet es "bucket").truthy && (dictGet es "name").truthy &&
               (dictGet es "size").truthy && (dictGet es "contentType").truthy) then
            ⟨[⟨.error, .missingEssential ev.data⟩], [], .ok⟩
          else
            afterValidation cfgToken respond eid etype timestamp es

/-! ### Concrete fixtures used by witnesses and counterexamples -/

/-- A responder that always answers HTTP 200. -/
def respond200 : HttpRequest → HttpResult := fun _ => .status 200 "ok"

/-- The spec's well-formed example data body. -/
def esHappy : List (String × PyVal) :=
  [("bucket", .str "b1"), ("name", .str "f.txt"),
   ("size", .str "1024"), ("contentType", .str "text/plain")]

/-- A well-formed data body with the non-text, non-application content type
"image/png". -/
def esPng : List (String × PyVal) :=
  [("bucket", .str "b1"), ("name", .str "f.txt"),
   ("size", .str "1024"), ("contentType", .str "image/png")]

/-- A well-formed data body with size 11000000, above the 10 MiB advisory
threshold. -/
def esBig : List (String × PyVal) :=
  [("bucket", .str "b1"), ("name", .str "f.txt"),
   ("size", .str "11000000"), ("contentType", .str "text/plain")]

/-- The spec's well-formed example envelope. -/
def evHappy : CloudEvent :=
  ⟨some "e1", some "google.cloud.storage.object.v1.finalized",
   some "2024-01-01T00:00:00Z", .dict esHappy⟩

/-! ### Helper lemmas -/

lemma dictGet_truthy_ne_nil {es : List (String × PyVal)} {k : String}
    (h : (dictGet es k).truthy = true) : es ≠ [] := by
  intro hnil
  subst hnil
  simp [dictGet, PyVal.truthy] at h

/-- When the envelope attributes are present and validation passes, the
handler runs the post-validation body. -/
lemma run_valid_eq (cfgToken : String) (respond : HttpRequest → HttpResult)
    (eid etype ts : String) (es : List (String × PyVal))
    (hb : (dictGet es "bucket").truthy = true)
    (hn : (dictGet es "name").truthy = true)
    (hs : (dictGet es "size").truthy = true)
    (hc : (dictGet es "contentType").truthy = true) :
    procesar_archivo_gcs cfgToken respond ⟨some eid, some etype, some ts, .dict es⟩
      = afterValidation cfgToken respond eid etype ts es := by
  have hne : es ≠ [] := dictGet_truthy_ne_nil hb
  cases es with
  | nil => cases hne rfl
  | cons p ps =>
    unfold procesar_archivo_gcs
    simp only [PyVal.dictEntries, hb, hn, hs, hc]
    simp [PyVal.truthy, PyVal.isDict]

lemma afterValidation_posts (cfgToken : String)
    (respond : HttpRequest → HttpResult) (eid etype ts : String)
    (es : List (String × PyVal)) :
    (afterValidation cfgToken respond eid etype ts es).posts
      = (tryBlock respond eid (dictGet es "name") (dictGet es "size")
          (dictGet es "contentType") [("Content-Type", "application/json")]
          [("token", cfgToken)]
          (thePayload (dictGet es "name") (dictGet es "bucket")
            (dictGet es "size") (dictGet es "contentType") ts)).posts := by
  unfold afterValidation
  dsimp only
  split <;> rfl

lemma afterValidation_outcome (cfgToken : String)
    (respond : HttpRequest → HttpResult) (eid etype ts : String)
    (es : List (String × PyVal)) :
    (afterValidation cfgToken respond eid etype ts es).outcome = .ok := by
  unfold afterValidation
  dsimp only
  split <;> rfl

lemma tryBlock_posts_length (respond : HttpRequest → HttpResult)
    (eid : String) (fn fs ct : PyVal) (hdrs ps : List (String × String))
    (pl : List (String × PyVal)) :
    (tryBlock respond eid fn fs ct hdrs ps pl).posts.length ≤ 1 := by
  unfold tryBlock
  split
  · simp
  · split
    · dsimp only
      split
      · simp
      · split <;> simp
    · simp

/-- In the happy path (size parses, content type is a string), the `try`
block posts exactly the one request, whatever the responder does. -/
lemma tryBlock_posts_happy (respond : HttpRequest → HttpResult)
    (eid : String) (fn fs : PyVal) (c : String)
    (hdrs ps : List (String × String)) (pl : List (String × PyVal))
    (n : Int) (hsz : pyInt fs = .ok n) :
    (tryBlock respond eid fn fs (.str c) hdrs ps pl).posts
      = [⟨APPS_SCRIPT_WEB_APP_URL, hdrs, ps, pl⟩] := by
  unfold tryBlock
  rw [hsz]
  dsimp only
  split
  · rfl
  · split <;> rfl

/-- In the happy path the `try` block's log starts with the two advisory
warning segments followed by the pre-send info lines. -/
lemma tryBlock_logs_happy (respond : HttpRequest → HttpResult)
    (eid : String) (fn fs : PyVal) (c : String)
    (hdrs ps : List (String × String)) (pl : List (String × PyVal))
    (n : Int) (hsz : pyInt fs = .ok n) :
    ∃ tail,
      (tryBlock respond eid fn fs (.str c) hdrs ps pl).logs
        = ctypeWarn eid fn c ++ sizeWarn eid fn n ++
            preSendInfos eid fn hdrs ps ++ tail := by
  unfold tryBlock
  rw [hsz]
  dsimp only
  split
  · exact ⟨[], by simp⟩
  · split
    · exact ⟨[], by simp⟩
    · rename_i code text h1 x2 a h2
      exact ⟨[⟨.info, .requestSuccess eid code text⟩], by simp⟩

lemma pyInt_str_bad {s : String} (hbad : strToInt? s = Option.none) :
    pyInt (.str s) = .error (.valueError s) := by
  unfold pyInt
  dsimp only
  rw [hbad]

/-- A non-numeric size string makes the `try` block raise the `ValueError`
before any request is issued. -/
lemma tryBlock_bad_size (respond : HttpRequest → HttpResult) (eid : String)
    (fn ct : PyVal) (s : String) (hdrs ps : List (String × String))
    (pl : List (String × PyVal)) (hbad : strToInt? s = Option.none) :
    tryBlock respond eid fn (.str s) ct hdrs ps pl
      = ⟨[], [], .error (.valueError s)⟩ := by
  unfold tryBlock
  rw [pyInt_str_bad hbad]

/-- The post-validation run always ends normally; its log is the intro lines,
then the `try` block's log, then (on an exception) the matching `except`
arm's error line. -/
lemma afterValidation_logs (cfgToken : String)
    (respond : HttpRequest → HttpResult) (eid etype ts : String)
    (es : List (String × PyVal)) :
    ∃ tail, (afterValidation cfgToken respond eid etype ts es).logs
      = introLogs eid etype ts (dictGet es "name") (dictGet es "bucket")
          (dictGet es "size") (dictGet es "contentType")
          (dictGet es "metageneration")
        ++ (tryBlock respond eid (dictGet es "name") (dictGet es "size")
            (dictGet es "contentType") [("Content-Type", "application/json")]
            [("token", cfgToken)]
            (thePayload (dictGet es "name") (dictGet es "bucket")
              (dictGet es "size") (dictGet es "contentType") ts)).logs
        ++ tail := by
  unfold afterValidation
  dsimp only
  split
  · exact ⟨[], by simp⟩
  · rename_i e h
    exact ⟨[handleExc eid (dictGet es "name") e], by simp⟩

/-- When the `try` block raises, the run appends exactly the matching
`except` arm's error line. -/
lemma afterValidation_error (cfgToken : String)
    (respond : HttpRequest → HttpResult) (eid etype ts : String)
    (es : List (String × PyVal)) (L : List LogEntry) (P : List HttpRequest)
    (e : PyExc)
    (htry : tryBlock respond eid (dictGet es "name") (dictGet es "size")
        (dictGet es "contentType") [("Content-Type", "application/json")]
        [("token", cfgToken)]
        (thePayload (dictGet es "name") (dictGet es "bucket")
          (dictGet es "size") (dictGet es "contentType") ts)
      = ⟨L, P, .error e⟩) :
    afterValidation cfgToken respond eid etype ts es
      = ⟨introLogs eid etype ts (dictGet es "name") (dictGet es "bucket")
           (dictGet es "size") (dictGet es "contentType")
           (dictGet es "metageneration")
         ++ L ++ [handleExc eid (dictGet es "name") e], P, .ok⟩ := by
  unfold afterValidation
  dsimp only
  rw [htry]

/-- With a responder that answers a 4xx/5xx status, the `try` block raises
the `HTTPError` from `raise_for_status` after issuing the one request. -/
lemma tryBlock_const_error_status (eid : String) (fn fs : PyVal) (c : String)
    (hdrs ps : List (String × String)) (pl : List (String × PyVal))
    (n : Int) (code : Nat) (text : String)
    (hsz : pyInt fs = .ok n) (h4 : 400 ≤ code) (h6 : code < 600) :
    tryBlock (fun _ => .status code text) eid fn fs (.str c) hdrs ps pl
      = ⟨ctypeWarn eid fn c ++ sizeWarn eid fn n ++ preSendInfos eid fn hdrs ps,
         [⟨APPS_SCRIPT_WEB_APP_URL, hdrs, ps, pl⟩],
         .error (.httpError code)⟩ := by
  unfold tryBlock
  rw [hsz]
  dsimp only
  unfold raiseForStatus
  rw [if_pos ⟨h4, h6⟩]

/-- A truthy non-string content type makes the advisory check raise
`AttributeError` before the request is issued. -/
lemma tryBlock_nonstr_ct (respond : HttpRequest → HttpResult) (eid : String)
    (fn fs ct : PyVal) (hdrs ps : List (String × String))
    (pl : List (String × PyVal)) (n : Int)
    (hsz : pyInt fs = .ok n) (hnot : ∀ s, ct ≠ .str s) :
    tryBlock respond eid fn fs ct hdrs ps pl
      = ⟨[], [], .error .attributeError⟩ := by
  unfold tryBlock
  rw [hsz]
  dsimp only
  cases ct with
  | str s => exact absurd rfl (hnot s)
  | none => rfl
  | int k => rfl
  | dict es2 => rfl

lemma filter_error_introLogs (eid etype ts : String) (fn bn fs ct mg : PyVal) :
    (introLogs eid etype ts fn bn fs ct mg).filter
      (fun e => e.level == LogLevel.error) = [] := rfl

lemma filter_error_ctypeWarn (eid : String) (fn : PyVal) (c : String) :
    (ctypeWarn eid fn c).filter (fun e => e.level == LogLevel.error) = [] := by
  unfold ctypeWarn
  split <;> rfl

lemma filter_error_sizeWarn (eid : String) (fn : PyVal) (n : Int) :
    (sizeWarn eid fn n).filter (fun e => e.level == LogLevel.error) = [] := by
  unfold sizeWarn
  split <;> rfl

lemma filter_error_preSendInfos (eid : String) (fn : PyVal)
    (hdrs ps : List (String × String)) :
    (preSendInfos eid fn hdrs ps).filter
      (fun e => e.level == LogLevel.error) = [] := rfl

/-! ### Claim theorems -/

/-- C7: for every input envelope, the handler performs either zero or exactly
one outbound HTTP request per invocation — never more than one. -/
theorem claim7_at_most_one_post (cfgToken : String)
    (respond : HttpRequest → HttpResult) (ev : CloudEvent) :
    (procesar_archivo_gcs cfgToken respond ev).posts.length ≤ 1 := by
  obtain ⟨i, t, ti, d⟩ := ev
  cases i with
  | none => simp [procesar_archivo_gcs]
  | some eid =>
    cases t with
    | none => simp [procesar_archivo_gcs]
    | some etype =>
      cases ti with
      | none => simp [procesar_archivo_gcs]
      | some ts =>
        unfold procesar_archivo_gcs
        dsimp only
        split
        · simp
        · split
          · simp
          · rw [afterValidation_posts]
            exact tryBlock_posts_length _ _ _ _ _ _ _ _

/-- C6 (counterexample): the claim fails for an envelope missing the
identifier attribute — `cloud_event["id"]` on line 34 runs before the `try`
block, so the `KeyError` escapes the handler instead of ending in a logged
error. -/
theorem claim6_counterexample :
    (procesar_archivo_gcs "12345" respond200
        ⟨Option.none, some "google.cloud.storage.object.v1.finalized",
         some "2024-01-01T00:00:00Z", .dict esHappy⟩).outcome
      = .raised (.keyError "id") := rfl

/-- C6 (amended): for every envelope that carries the identifier, type and
timestamp attributes, the handler terminates normally without raising to the
invoking runtime: every failure ends the invocation via a logged error
only. -/
theorem claim6_amended_no_raise (cfgToken : String)
    (respond : HttpRequest → HttpResult) (eid etype ts : String) (d : PyVal) :
    (procesar_archivo_gcs cfgToken respond
        ⟨some eid, some etype, some ts, d⟩).outcome = .ok := by
  unfold procesar_archivo_gcs
  dsimp only
  split
  · rfl
  · split
    · rfl
    · exact afterValidation_outcome _ _ _ _ _ _

/-- C4: for every envelope whose data body is absent (`None`), empty, or not
a key-value mapping, the handler logs one error and returns with no outbound
call. -/
theorem claim4_invalid_body_aborts (cfgToken : String)
    (respond : HttpRequest → HttpResult) (eid etype ts : String) (d : PyVal)
    (h : d = PyVal.none ∨ d = PyVal.dict [] ∨ d.isDict = false) :
    procesar_archivo_gcs cfgToken respond ⟨some eid, some etype, some ts, d⟩
      = ⟨[⟨.error, .invalidEventData⟩], [], .ok⟩ := by
  have hcond : (!d.truthy || !d.isDict) = true := by
    rcases h with rfl | rfl | h
    · rfl
    · rfl
    · simp [h]
  unfold procesar_archivo_gcs
  dsimp only
  simp [hcond]

/-- C4 witness: the claim theorem applied to an absent (`None`) data body. -/
theorem claim4_witness :
    procesar_archivo_gcs "12345" respond200
        ⟨some "e1", some "t", some "ts", PyVal.none⟩
      = ⟨[⟨.error, .invalidEventData⟩], [], .ok⟩ :=
  claim4_invalid_body_aborts "12345" respond200 "e1" "t" "ts" PyVal.none
    (Or.inl rfl)

/-- C2: for every envelope whose data body is a non-empty mapping in which
any of the four essential fields (bucket, name, size, contentType) is absent
or falsy, the handler performs zero outbound calls and logs exactly one
error, which carries the received data body. -/
theorem claim2_missing_field_aborts (cfgToken : String)
    (respond : HttpRequest → HttpResult) (eid etype ts : String)
    (es : List (String × PyVal)) (hne : es ≠ [])
    (hmiss : ((dictGet es "bucket").truthy && (dictGet es "name").truthy &&
              (dictGet es "size").truthy &&
              (dictGet es "contentType").truthy) = false) :
    procesar_archivo_gcs cfgToken respond ⟨some eid, some etype, some ts, .dict es⟩
      = ⟨[⟨.error, .missingEssential (.dict es)⟩], [], .ok⟩ := by
  cases es with
  | nil => cases hne rfl
  | cons p ps =>
    unfold procesar_archivo_gcs
    dsimp only
    simp only [PyVal.dictEntries, hmiss]
    simp [PyVal.truthy, PyVal.isDict]

/-- C2 witness: the claim theorem applied to a body holding only a bucket. -/
theorem claim2_witness :
    procesar_archivo_gcs "12345" respond200
        ⟨some "e1", some "t", some "ts", .dict [("bucket", .str "b1")]⟩
      = ⟨[⟨.error, .missingEssential (.dict [("bucket", .str "b1")])⟩], [], .ok⟩ :=
  claim2_missing_field_aborts "12345" respond200 "e1" "t" "ts"
    [("bucket", .str "b1")] (by simp) (by decide)

/-- A data body whose four essential fields are non-empty but whose size is
the non-numeric string "abc". -/
def esAbcSize : List (String × PyVal) :=
  [("bucket", .str "b1"), ("name", .str "f.txt"),
   ("size", .str "abc"), ("contentType", .str "text/plain")]

/-- C1 (counterexample): the claim fails as stated.  This data body has all
four essential fields non-empty, yet the handler issues zero POSTs (the size
"abc" does not parse, so the invocation aborts inside the `try` block). -/
theorem claim1_counterexample :
    ((dictGet esAbcSize "bucket").truthy = true ∧
     (dictGet esAbcSize "name").truthy = true ∧
     (dictGet esAbcSize "size").truthy = true ∧
     (dictGet esAbcSize "contentType").truthy = true) ∧
    (procesar_archivo_gcs "12345" respond200
        ⟨some "e1", some "google.cloud.storage.object.v1.finalized",
         some "2024-01-01T00:00:00Z", .dict esAbcSize⟩).posts
      = [] :=
  ⟨by decide, rfl⟩

/-- C1 (amended): for every envelope whose data body has non-empty bucket
and name, a size value that `int()` can parse, and a non-empty string
contentType, the handler issues exactly one POST to the fixed webhook URL
with the configured token as the `token` query parameter, the
`Content-Type: application/json` header, and exactly the six-field JSON body
whose `fileSize` is the original pre-parsed size value as received. -/
theorem claim1_amended_single_post_exact (cfgToken : String)
    (respond : HttpRequest → HttpResult) (eid etype ts : String)
    (es : List (String × PyVal)) (n : Int) (c : String)
    (hb : (dictGet es "bucket").truthy = true)
    (hn : (dictGet es "name").truthy = true)
    (hs : (dictGet es "size").truthy = true)
    (hsz : pyInt (dictGet es "size") = .ok n)
    (hct : dictGet es "contentType" = .str c)
    (hcne : c ≠ "") :
    (procesar_archivo_gcs cfgToken respond
        ⟨some eid, some etype, some ts, .dict es⟩).posts
      = [⟨APPS_SCRIPT_WEB_APP_URL, [("Content-Type", "application/json")],
          [("token", cfgToken)],
          [("fileName", dictGet es "name"),
           ("bucketName", dictGet es "bucket"),
           ("fileSize", dictGet es "size"),
           ("contentType", .str c),
           ("timeCreated", .str ts),
           ("source", .str "CloudStorage")]⟩] := by
  have hc : (dictGet es "contentType").truthy = true := by
    rw [hct]
    simp [PyVal.truthy, hcne]
  rw [run_valid_eq cfgToken respond eid etype ts es hb hn hs hc,
      afterValidation_posts, hct]
  simpa [thePayload] using
    tryBlock_posts_happy respond eid (dictGet es "name") (dictGet es "size") c
      [("Content-Type", "application/json")] [("token", cfgToken)]
      (thePayload (dictGet es "name") (dictGet es "bucket")
        (dictGet es "size") (.str c) ts) n hsz

/-- C1 witness: the amended theorem applied to the spec's example envelope. -/
theorem claim1_witness :
    (procesar_archivo_gcs "12345" respond200 evHappy).posts
      = [⟨APPS_SCRIPT_WEB_APP_URL, [("Content-Type", "application/json")],
          [("token", "12345")],
          [("fileName", .str "f.txt"), ("bucketName", .str "b1"),
           ("fileSize", .str "1024"), ("contentType", .str "text/plain"),
           ("timeCreated", .str "2024-01-01T00:00:00Z"),
           ("source", .str "CloudStorage")]⟩] :=
  claim1_amended_single_post_exact "12345" respond200 "e1"
    "google.cloud.storage.object.v1.finalized" "2024-01-01T00:00:00Z"
    esHappy 1024 "text/plain" (by decide) (by decide) (by decide) rfl rfl
    (by decide)

/-- C3: for every envelope with all four essential fields non-empty whose
size value is a non-numeric string, the handler performs zero outbound calls
and its only error log is the size-conversion error carrying the offending
value. -/
theorem claim3_nonnumeric_size_aborts (cfgToken : String)
    (respond : HttpRequest → HttpResult) (eid etype ts : String)
    (es : List (String × PyVal)) (s : String)
    (hb : (dictGet es "bucket").truthy = true)
    (hn : (dictGet es "name").truthy = true)
    (hc : (dictGet es "contentType").truthy = true)
    (hsv : dictGet es "size" = .str s) (hsne : s ≠ "")
    (hbad : strToInt? s = Option.none) :
    (procesar_archivo_gcs cfgToken respond
        ⟨some eid, some etype, some ts, .dict es⟩).posts = [] ∧
    (procesar_archivo_gcs cfgToken respond
        ⟨some eid, some etype, some ts, .dict es⟩).errorLogs
      = [⟨.error, .sizeConvertError eid (dictGet es "name") (.valueError s)⟩] := by
  have hs : (dictGet es "size").truthy = true := by
    rw [hsv]
    simp [PyVal.truthy, hsne]
  rw [run_valid_eq cfgToken respond eid etype ts es hb hn hs hc]
  unfold afterValidation
  dsimp only
  rw [hsv, tryBlock_bad_size respond eid (dictGet es "name")
        (dictGet es "contentType") s _ _ _ hbad]
  constructor
  · rfl
  · simp [RunResult.errorLogs, introLogs, handleExc, isRequestException]

/-- C3 witness: the claim theorem applied to the size-"abc" envelope. -/
theorem claim3_witness :
    (procesar_archivo_gcs "12345" respond200
        ⟨some "e1", some "t", some "ts", .dict esAbcSize⟩).posts = [] ∧
    (procesar_archivo_gcs "12345" respond200
        ⟨some "e1", some "t", some "ts", .dict esAbcSize⟩).errorLogs
      = [⟨.error, .sizeConvertError "e1" (dictGet esAbcSize "name")
            (.valueError "abc")⟩] :=
  claim3_nonnumeric_size_aborts "12345" respond200 "e1" "t" "ts" esAbcSize
    "abc" (by decide) (by decide) (by decide) rfl (by decide) (by decide)

/-- A responder that always answers HTTP 304 (a non-2xx status outside the
[400, 600) range that `raise_for_status` checks). -/
def respond304 : HttpRequest → HttpResult := fun _ => .status 304 "NotModified"

/-- C5 (counterexample): the claim fails as stated.  A well-formed envelope
whose outbound POST completes with status 304 — a non-2xx status — is logged
as a success: one POST, zero error logs, and an info line recording
status 304, because `raise_for_status` only raises for 4xx/5xx. -/
theorem claim5_counterexample :
    (procesar_archivo_gcs "12345" respond304
        ⟨some "e1", some "t", some "ts", .dict esHappy⟩).posts.length = 1 ∧
    (procesar_archivo_gcs "12345" respond304
        ⟨some "e1", some "t", some "ts", .dict esHappy⟩).errorLogs = [] ∧
    (procesar_archivo_gcs "12345" respond304
        ⟨some "e1", some "t", some "ts", .dict esHappy⟩).logs.getLast?
      = some ⟨.info, .requestSuccess "e1" 304 "NotModified"⟩ :=
  ⟨rfl, rfl, rfl⟩

/-- C5 (amended): for every well-formed envelope where the outbound POST
completes with a 4xx or 5xx HTTP status (e.g. 500), the handler treats it as
a failure: it logs exactly one error — the delivery error carrying the
status — issues no second request, and terminates normally without
raising. -/
theorem claim5_amended_error_status_logged (cfgToken : String)
    (eid etype ts : String) (es : List (String × PyVal)) (n : Int)
    (c : String) (code : Nat) (text : String)
    (hb : (dictGet es "bucket").truthy = true)
    (hn : (dictGet es "name").truthy = true)
    (hs : (dictGet es "size").truthy = true)
    (hsz : pyInt (dictGet es "size") = .ok n)
    (hct : dictGet es "contentType" = .str c)
    (hcne : c ≠ "") (h4 : 400 ≤ code) (h6 : code < 600) :
    (procesar_archivo_gcs cfgToken (fun _ => .status code text)
        ⟨some eid, some etype, some ts, .dict es⟩).posts.length = 1 ∧
    (procesar_archivo_gcs cfgToken (fun _ => .status code text)
        ⟨some eid, some etype, some ts, .dict es⟩).errorLogs
      = [⟨.error, .sendError eid (.httpError code)⟩] ∧
    (procesar_archivo_gcs cfgToken (fun _ => .status code text)
        ⟨some eid, some etype, some ts, .dict es⟩).outcome = .ok := by
  have hc : (dictGet es "contentType").truthy = true := by
    rw [hct]
    simp [PyVal.truthy, hcne]
  rw [run_valid_eq cfgToken (fun _ => .status code text) eid etype ts es hb hn hs hc]
  have htry : tryBlock (fun _ => .status code text) eid (dictGet es "name")
      (dictGet es "size") (dictGet es "contentType")
      [("Content-Type", "application/json")] [("token", cfgToken)]
      (thePayload (dictGet es "name") (dictGet es "bucket")
        (dictGet es "size") (dictGet es "contentType") ts)
      = ⟨ctypeWarn eid (dictGet es "name") c ++
           sizeWarn eid (dictGet es "name") n ++
           preSendInfos eid (dictGet es "name")
             [("Content-Type", "application/json")] [("token", cfgToken)],
         [⟨APPS_SCRIPT_WEB_APP_URL, [("Content-Type", "application/json")],
           [("token", cfgToken)],
           thePayload (dictGet es "name") (dictGet es "bucket")
             (dictGet es "size") (.str c) ts⟩],
         .error (.httpError code)⟩ := by
    rw [hct]
    exact tryBlock_const_error_status eid (dictGet es "name")
      (dictGet es "size") c _ _ _ n code text hsz h4 h6
  rw [afterValidation_error cfgToken (fun _ => .status code text) eid etype ts
        es _ _ _ htry]
  refine ⟨rfl, ?_, rfl⟩
  simp [RunResult.errorLogs, List.filter_append, filter_error_introLogs,
    filter_error_ctypeWarn, filter_error_sizeWarn, filter_error_preSendInfos,
    handleExc, isRequestException]

/-- C5 witness: the amended theorem applied to the spec's envelope with a
responder answering HTTP 500. -/
theorem claim5_witness :
    (procesar_archivo_gcs "12345" (fun _ => .status 500 "boom")
        ⟨some "e1", some "t", some "ts", .dict esHappy⟩).posts.length = 1 ∧
    (procesar_archivo_gcs "12345" (fun _ => .status 500 "boom")
        ⟨some "e1", some "t", some "ts", .dict esHappy⟩).errorLogs
      = [⟨.error, .sendError "e1" (.httpError 500)⟩] ∧
    (procesar_archivo_gcs "12345" (fun _ => .status 500 "boom")
        ⟨some "e1", some "t", some "ts", .dict esHappy⟩).outcome = .ok :=
  claim5_amended_error_status_logged "12345" "e1" "t" "ts" esHappy 1024
    "text/plain" 500 "boom" (by decide) (by decide) (by decide) rfl rfl
    (by decide) (by decide) (by decide)

/-- C8: for every well-formed envelope whose contentType is a non-empty
string starting with neither "text/" nor "application/", the handler emits
the advisory warning and still performs the single outbound POST. -/
theorem claim8_ctype_warning_still_posts (cfgToken : String)
    (respond : HttpRequest → HttpResult) (eid etype ts : String)
    (es : List (String × PyVal)) (n : Int) (c : String)
    (hb : (dictGet es "bucket").truthy = true)
    (hn : (dictGet es "name").truthy = true)
    (hs : (dictGet es "size").truthy = true)
    (hsz : pyInt (dictGet es "size") = .ok n)
    (hct : dictGet es "contentType" = .str c) (hcne : c ≠ "")
    (hp1 : pyStartsWith c "text/" = false)
    (hp2 : pyStartsWith c "application/" = false) :
    (procesar_archivo_gcs cfgToken respond
        ⟨some eid, some etype, some ts, .dict es⟩).posts.length = 1 ∧
    (⟨.warning, .contentTypeWarning eid (dictGet es "name") (.str c)⟩ : LogEntry)
      ∈ (procesar_archivo_gcs cfgToken respond
          ⟨some eid, some etype, some ts, .dict es⟩).logs := by
  have hc : (dictGet es "contentType").truthy = true := by
    rw [hct]
    simp [PyVal.truthy, hcne]
  rw [run_valid_eq cfgToken respond eid etype ts es hb hn hs hc]
  constructor
  · rw [afterValidation_posts, hct,
        tryBlock_posts_happy respond eid (dictGet es "name")
          (dictGet es "size") c _ _ _ n hsz]
    rfl
  · obtain ⟨tail, hlogs⟩ := afterValidation_logs cfgToken respond eid etype ts es
    rw [hct] at hlogs
    obtain ⟨tail2, hlogs2⟩ := tryBlock_logs_happy respond eid
      (dictGet es "name") (dictGet es "size") c
      [("Content-Type", "application/json")] [("token", cfgToken)]
      (thePayload (dictGet es "name") (dictGet es "bucket")
        (dictGet es "size") (.str c) ts) n hsz
    rw [hlogs2] at hlogs
    rw [hlogs]
    simp [ctypeWarn, hp1, hp2]

/-- C8 witness: the claim theorem applied to a well-formed envelope with
contentType "image/png". -/
theorem claim8_witness :
    (procesar_archivo_gcs "12345" respond200
        ⟨some "e1", some "t", some "ts", .dict esPng⟩).posts.length = 1 ∧
    (⟨.warning, .contentTypeWarning "e1" (dictGet esPng "name")
        (.str "image/png")⟩ : LogEntry)
      ∈ (procesar_archivo_gcs "12345" respond200
          ⟨some "e1", some "t", some "ts", .dict esPng⟩).logs :=
  claim8_ctype_warning_still_posts "12345" respond200 "e1" "t" "ts" esPng
    1024 "image/png" (by decide) (by decide) (by decide) rfl rfl (by decide)
    (by decide) (by decide)

/-- C9: for every well-formed envelope whose size parses to an integer
strictly greater than 10 MiB, the handler emits the large-file warning and
still performs the single outbound POST. -/
theorem claim9_large_size_warning_still_posts (cfgToken : String)
    (respond : HttpRequest → HttpResult) (eid etype ts : String)
    (es : List (String × PyVal)) (n : Int) (c : String)
    (hb : (dictGet es "bucket").truthy = true)
    (hn : (dictGet es "name").truthy = true)
    (hs : (dictGet es "size").truthy = true)
    (hsz : pyInt (dictGet es "size") = .ok n)
    (hct : dictGet es "contentType" = .str c) (hcne : c ≠ "")
    (hlarge : n > 10 * 1024 * 1024) :
    (procesar_archivo_gcs cfgToken respond
        ⟨some eid, some etype, some ts, .dict es⟩).posts.length = 1 ∧
    (⟨.warning, .largeFileWarning eid (dictGet es "name") n⟩ : LogEntry)
      ∈ (procesar_archivo_gcs cfgToken respond
          ⟨some eid, some etype, some ts, .dict es⟩).logs := by
  have hc : (dictGet es "contentType").truthy = true := by
    rw [hct]
    simp [PyVal.truthy, hcne]
  rw [run_valid_eq cfgToken respond eid etype ts es hb hn hs hc]
  constructor
  · rw [afterValidation_posts, hct,
        tryBlock_posts_happy respond eid (dictGet es "name")
          (dictGet es "size") c _ _ _ n hsz]
    rfl
  · obtain ⟨tail, hlogs⟩ := afterValidation_logs cfgToken respond eid etype ts es
    rw [hct] at hlogs
    obtain ⟨tail2, hlogs2⟩ := tryBlock_logs_happy respond eid
      (dictGet es "name") (dictGet es "size") c
      [("Content-Type", "application/json")] [("token", cfgToken)]
      (thePayload (dictGet es "name") (dictGet es "bucket")
        (dictGet es "size") (.str c) ts) n hsz
    rw [hlogs2] at hlogs
    rw [hlogs]
    have hlarge10 : (10485760 : Int) < n := by
      norm_num at hlarge
      exact hlarge
    simp [sizeWarn, hlarge10]

/-- C9 witness: the claim theorem applied to a well-formed envelope with
size 11000000 (> 10 MiB). -/
theorem claim9_witness :
    (procesar_archivo_gcs "12345" respond200
        ⟨some "e1", some "t", some "ts", .dict esBig⟩).posts.length = 1 ∧
    (⟨.warning, .largeFileWarning "e1" (dictGet esBig "name") 11000000⟩ :
        LogEntry)
      ∈ (procesar_archivo_gcs "12345" respond200
          ⟨some "e1", some "t", some "ts", .dict esBig⟩).logs :=
  claim9_large_size_warning_still_posts "12345" respond200 "e1" "t" "ts"
    esBig 11000000 "text/plain" (by decide) (by decide) (by decide) rfl rfl
    (by decide) (by decide)

/-- C10: for every envelope that passes validation with a truthy non-string
contentType and a parseable size, the handler performs zero outbound calls
and its only error log is the generic catch-all for the `AttributeError`
raised by the content-type advisory check. -/
theorem claim10_nonstring_ctype_unexpected_error (cfgToken : String)
    (respond : HttpRequest → HttpResult) (eid etype ts : String)
    (es : List (String × PyVal)) (n : Int)
    (hb : (dictGet es "bucket").truthy = true)
    (hn : (dictGet es "name").truthy = true)
    (hs : (dictGet es "size").truthy = true)
    (hc : (dictGet es "contentType").truthy = true)
    (hnot : ∀ s, dictGet es "contentType" ≠ .str s)
    (hsz : pyInt (dictGet es "size") = .ok n) :
    (procesar_archivo_gcs cfgToken respond
        ⟨some eid, some etype, some ts, .dict es⟩).posts = [] ∧
    (procesar_archivo_gcs cfgToken respond
        ⟨some eid, some etype, some ts, .dict es⟩).errorLogs
      = [⟨.error, .unexpectedError eid (dictGet es "name")
            .attributeError⟩] := by
  rw [run_valid_eq cfgToken respond eid etype ts es hb hn hs hc]
  rw [afterValidation_error cfgToken respond eid etype ts es [] []
        .attributeError
        (tryBlock_nonstr_ct respond eid (dictGet es "name")
          (dictGet es "size") (dictGet es "contentType") _ _ _ n hsz hnot)]
  refine ⟨rfl, ?_⟩
  simp [RunResult.errorLogs, List.filter_append, filter_error_introLogs,
    handleExc, isRequestException]

/-- A data body whose contentType is the truthy non-string value 7. -/
def esIntCtype : List (String × PyVal) :=
  [("bucket", .str "b1"), ("name", .str "f.txt"),
   ("size", .str "12"), ("contentType", .int 7)]

/-- C10 witness: the claim theorem applied to a body whose contentType is
the integer 7 and whose size is numeric. -/
theorem claim10_witness :
    (procesar_archivo_gcs "12345" respond200
        ⟨some "e1", some "t", some "ts", .dict esIntCtype⟩).posts = [] ∧
    (procesar_archivo_gcs "12345" respond200
        ⟨some "e1", some "t", some "ts", .dict esIntCtype⟩).errorLogs
      = [⟨.error, .unexpectedError "e1" (dictGet esIntCtype "name")
            .attributeError⟩] :=
  claim10_nonstring_ctype_unexpected_error "12345" respond200 "e1" "t" "ts"
    esIntCtype 12 (by decide) (by decide) (by decide) (by decide)
    (fun s h => PyVal.noConfusion h) rfl

end GcsMeta
